import Mathlib

/-!
Shallow embedding of `src/main.py` of the blog-agent service.

The service resolves optional `topic`/`keyword` query parameters against a
fixed fallback list (Python truthiness decides whether a field counts as
missing), builds a prompt, performs one outbound chat-completion call, and
maps generator failures to HTTP responses.

Modelling conventions:
- Python `Optional[str]` values become `Option String`; Python truthiness of
  such a value (`None` and `""` are falsy) is `pyFalsy`.
- The uniform random selection `random.choice(DEFAULT_TOPICS)` is modelled
  nondeterministically: theorems quantify over the selected index
  `i : Fin DEFAULT_TOPICS.length`, covering every outcome the uniform
  distribution can produce.
- The outbound provider is an oracle `ProviderBehavior`: it either raises an
  exception with some message or returns a list of completion choices, each
  carrying an optional text content (mirroring `completion.choices` and
  `choice.message.content`).
- Python exceptions are `PyExc`; the source raises `RuntimeError` at its three
  explicit failure sites, while `completion.choices[0]` on an empty list
  raises an `IndexError` (a different exception class, outside the `try`
  block that wraps only the `create` call).
- `datetime.utcnow().isoformat()` is the parameter `nowIso`; the handler
  appends the literal `"Z"` exactly as the source does.
- `generate_article` returns, besides its result, an observable trace:
  whether `build_prompt` ran (`userPrompt`) and whether the outbound call
  was attempted (`providerCalled`).
- FastAPI enforces `Query(ge=500, le=5000)` on `min_words` before the handler
  body runs, answering 422 (a 400-class status) with a validation-error body;
  `endpoint_run` models route-level validation plus the handler `run_job`.
-/

namespace BlogAgent

/-- A fallback (topic, keyword) pair, one entry of `DEFAULT_TOPICS`. -/
structure TopicKeywordPair where
  topic : String
  keyword : String
deriving DecidableEq

/-- The fixed fallback list `DEFAULT_TOPICS` from `src/main.py`. -/
def DEFAULT_TOPICS : List TopicKeywordPair := [
  { topic := "How to start a profitable niche blog with AI",
    keyword := "ai niche blog" },
  { topic := "Beginner’s guide to affiliate marketing with low budget",
    keyword := "beginner affiliate marketing" },
  { topic := "Best side hustles you can automate with AI tools",
    keyword := "automated side hustles with ai" },
  { topic := "How to use ChatGPT to write product reviews that convert",
    keyword := "chatgpt product reviews" },
  { topic := "SEO tips for small blogs in competitive niches",
    keyword := "seo tips for small blog" }
]

/-- Python truthiness test for an `Optional[str]`: `None` and `""` are falsy. -/
def pyFalsy (x : Option String) : Bool :=
  match x with
  | none => true
  | some s => s == ""

/-- Python `x or fallback` for `x : Optional[str]`: keeps `x` when truthy,
otherwise yields `fallback`.  Models `topic or choice\x7b"topic"\x7d`. -/
def resolveField (x : Option String) (fallback : String) : String :=
  match x with
  | none => fallback
  | some s => if s == "" then fallback else s

/-- The topic/keyword resolution step of `run_job` (src/main.py lines
174-178): when either field is falsy, one fallback pair `choice` is drawn and
each field is replaced by `field or choice[...]`; otherwise both caller
values pass through unchanged. -/
def resolveTopicKeyword (topic keyword : Option String)
    (choice : TopicKeywordPair) : String × String :=
  if pyFalsy topic || pyFalsy keyword then
    (resolveField topic choice.topic, resolveField keyword choice.keyword)
  else
    (topic.getD "", keyword.getD "")

/-- `build_prompt` from `src/main.py`: the user prompt f-string, verbatim. -/
def build_prompt (topic keyword language : String) (min_words : Int) : String :=
  "\nWrite a long-form blog post in " ++ language ++ ".\n\nTopic: " ++ topic
    ++ "\nTarget keyword: " ++ keyword
    ++ "\n\nRequirements:\n- Minimum length: " ++ toString min_words
    ++ " words (aim for at least this, not less).\n"
    ++ "- Use clean Markdown only (no HTML).\n"
    ++ "- Start with a strong H1 title (using #).\n"
    ++ "- After the introduction, include a short \"Table of contents\" as a bullet list.\n"
    ++ "- Use clear H2 and H3 headings to structure the content.\n"
    ++ "- Naturally weave the target keyword into the title, introduction, and several headings, but keep it natural (no keyword stuffing).\n"
    ++ "- Use short paragraphs (2–4 sentences), bullet lists and numbered lists where helpful.\n"
    ++ "- Provide practical, actionable tips and examples, not just theory.\n"
    ++ "- End with:\n  - A short conclusion section\n  - A \"Key takeaways\" bullet list\n"
    ++ "  - A \"FAQ\" section with 5 questions and answers related to the topic.\n"
    ++ "- Do NOT mention that you are an AI or that you were given instructions; just write the article.\n"

/-- `choice.message` of a completion choice: its `content` is `Optional[str]`. -/
structure ChoiceMessage where
  content : Option String
deriving DecidableEq

/-- One entry of `completion.choices`. -/
structure CompletionChoice where
  message : ChoiceMessage
deriving DecidableEq

/-- Oracle for the single outbound `client.chat.completions.create` call:
either the call raises an exception carrying a message, or it returns a
completion with a list of choices. -/
inductive ProviderBehavior where
  | raises (msg : String)
  | returns (choices : List CompletionChoice)
deriving DecidableEq

/-- Python exceptions relevant here.  The source raises `RuntimeError` at its
three explicit failure sites; indexing an empty `choices` list raises
`IndexError`, a distinct class. -/
inductive PyExc where
  | runtimeError (msg : String)
  | indexError (msg : String)
deriving DecidableEq

deriving instance DecidableEq for Except

/-- Observable outcome of one `generate_article` invocation: the user prompt
if `build_prompt` ran, whether the outbound call was attempted, and the
returned article or the raised exception. -/
structure GenOutcome where
  userPrompt : Option String
  providerCalled : Bool
  result : Except PyExc String
deriving DecidableEq

/-- `generate_article` from `src/main.py` (lines 104-144), parameterised by
the environment value of `OPENAI_API_KEY` and the provider oracle:
1. if the key is falsy (absent or empty), raise `RuntimeError` before
   building the prompt or touching the network;
2. build the prompt, attempt the call; any exception from the call is caught
   and re-raised as `RuntimeError` with the original message appended;
3. read `completion.choices[0].message.content` (an `IndexError` when
   `choices` is empty — this access sits outside the `try` block);
4. if the content is falsy (`None` or `""`), raise `RuntimeError`; else
   return it. -/
def generate_article (apiKey : Option String) (topic keyword language : String)
    (min_words : Int) (provider : ProviderBehavior) : GenOutcome :=
  if pyFalsy apiKey then
    { userPrompt := none, providerCalled := false,
      result := Except.error (PyExc.runtimeError
        "OPENAI_API_KEY is not set. Configure it as an environment variable.") }
  else
    let user_prompt := build_prompt topic keyword language min_words
    match provider with
    | ProviderBehavior.raises e =>
        { userPrompt := some user_prompt, providerCalled := true,
          result := Except.error (PyExc.runtimeError
            ("Error calling OpenAI API: " ++ e)) }
    | ProviderBehavior.returns choices =>
        match choices with
        | [] =>
            { userPrompt := some user_prompt, providerCalled := true,
              result := Except.error (PyExc.indexError "list index out of range") }
        | c :: _ =>
            match c.message.content with
            | none =>
                { userPrompt := some user_prompt, providerCalled := true,
                  result := Except.error (PyExc.runtimeError
                    "OpenAI returned an empty article.") }
            | some article =>
                if article == "" then
                  { userPrompt := some user_prompt, providerCalled := true,
                    result := Except.error (PyExc.runtimeError
                      "OpenAI returned an empty article.") }
                else
                  { userPrompt := some user_prompt, providerCalled := true,
                    result := Except.ok article }

/-- The `RunResponse` pydantic model of the success body. -/
structure RunResponse where
  topic : String
  keyword : String
  language : String
  min_words : Int
  created_at : String
  article_markdown : String
deriving DecidableEq

/-- Outcome of one `/run` request as seen by the client:
- `ok`: HTTP 200 with the `RunResponse` body;
- `httpException`: an `HTTPException(status, detail)` raised by the handler;
- `validationError`: FastAPI query validation rejected the request with the
  given 400-class status and its standard validation-error body;
- `unhandledException`: an exception escaped the handler (FastAPI's generic
  internal-error path, without the `detail`-bearing body of
  `httpException`). -/
inductive HttpResult where
  | ok (body : RunResponse)
  | httpException (status : Int) (detail : String)
  | validationError (status : Int)
  | unhandledException (e : PyExc)
deriving DecidableEq

/-- The `run_job` handler body (src/main.py lines 167-201), parameterised by
the drawn fallback pair, the environment key, the provider oracle, and the
current-time string `nowIso` (the value of `datetime.utcnow().isoformat()`).
Returns the HTTP outcome together with the generator's observable trace. -/
def run_job (topic keyword : Option String) (language : String)
    (min_words : Int) (choice : TopicKeywordPair) (apiKey : Option String)
    (provider : ProviderBehavior) (nowIso : String) :
    HttpResult × GenOutcome :=
  let resolved := resolveTopicKeyword topic keyword choice
  let g := generate_article apiKey resolved.1 resolved.2 language min_words provider
  match g.result with
  | Except.error (PyExc.runtimeError m) => (HttpResult.httpException 500 m, g)
  | Except.error e => (HttpResult.unhandledException e, g)
  | Except.ok article =>
      (HttpResult.ok { topic := resolved.1, keyword := resolved.2,
                       language := language, min_words := min_words,
                       created_at := nowIso ++ "Z",
                       article_markdown := article }, g)

/-- Trace of a full `/run` request at the route level. -/
structure EndpointTrace where
  response : HttpResult
  generatorInvoked : Bool
  providerCalled : Bool
deriving DecidableEq

/-- The full `/run` route: FastAPI first enforces the declared
`Query(ge=500, le=5000)` bound on `min_words`, answering 422 with a
validation-error body without running the handler; otherwise the handler
`run_job` runs. -/
def endpoint_run (topic keyword : Option String) (language : String)
    (min_words : Int) (choice : TopicKeywordPair) (apiKey : Option String)
    (provider : ProviderBehavior) (nowIso : String) : EndpointTrace :=
  if min_words < 500 ∨ 5000 < min_words then
    { response := HttpResult.validationError 422,
      generatorInvoked := false, providerCalled := false }
  else
    let r := run_job topic keyword language min_words choice apiKey provider nowIso
    { response := r.1, generatorInvoked := true,
      providerCalled := r.2.providerCalled }

/-! ## Helper lemmas -/

theorem resolveField_falsy (x : Option String) (d : String)
    (h : pyFalsy x = true) : resolveField x d = d := by
  cases x with
  | none => rfl
  | some s =>
      simp only [pyFalsy] at h
      simp [resolveField, h]

theorem resolveField_truthy (x : Option String) (d : String)
    (h : pyFalsy x = false) : resolveField x d = x.getD "" := by
  cases x with
  | none => simp [pyFalsy] at h
  | some s =>
      simp only [pyFalsy] at h
      simp [resolveField, h]

theorem resolveTopicKeyword_fst_falsy (topic keyword : Option String)
    (c : TopicKeywordPair) (h : pyFalsy topic = true) :
    (resolveTopicKeyword topic keyword c).1 = c.topic := by
  simp [resolveTopicKeyword, h, resolveField_falsy _ _ h]

theorem resolveTopicKeyword_snd_falsy (topic keyword : Option String)
    (c : TopicKeywordPair) (h : pyFalsy keyword = true) :
    (resolveTopicKeyword topic keyword c).2 = c.keyword := by
  simp [resolveTopicKeyword, h, resolveField_falsy _ _ h]

theorem resolveTopicKeyword_fst_truthy (topic keyword : Option String)
    (c : TopicKeywordPair) (h : pyFalsy topic = false) :
    (resolveTopicKeyword topic keyword c).1 = topic.getD "" := by
  by_cases hk : pyFalsy keyword = true
  · simp [resolveTopicKeyword, h, hk, resolveField_truthy _ _ h]
  · simp only [Bool.not_eq_true] at hk
    simp [resolveTopicKeyword, h, hk]

theorem resolveTopicKeyword_snd_truthy (topic keyword : Option String)
    (c : TopicKeywordPair) (h : pyFalsy keyword = false) :
    (resolveTopicKeyword topic keyword c).2 = keyword.getD "" := by
  by_cases ht : pyFalsy topic = true
  · simp [resolveTopicKeyword, h, ht, resolveField_truthy _ _ h]
  · simp only [Bool.not_eq_true] at ht
    simp [resolveTopicKeyword, h, ht]

theorem pyFalsy_some_of_ne (t : String) (h : t ≠ "") :
    pyFalsy (some t) = false := by
  simp only [pyFalsy]
  exact beq_false_of_ne h

theorem getD_ne_empty_of_truthy (x : Option String) (h : pyFalsy x = false) :
    x.getD "" ≠ "" := by
  cases x with
  | none => simp [pyFalsy] at h
  | some s =>
      simp only [pyFalsy] at h
      simpa using ne_of_beq_false h

theorem default_topics_fields_nonempty :
    ∀ i : Fin DEFAULT_TOPICS.length,
      (DEFAULT_TOPICS.get i).topic ≠ "" ∧ (DEFAULT_TOPICS.get i).keyword ≠ "" := by
  decide

/-! ## Claim theorems -/

/-- C1: for every `/run` request in which topic or keyword is missing (falsy:
absent or empty, the check the handler performs), the handler draws a single
fallback pair — here the universally quantified index `i`, covering every
outcome of the uniform draw — and fills exactly the missing fields from that
one pair, so two fallback-filled fields always come from the same pair, while
a caller-supplied (non-empty) field is never overwritten. -/
theorem run_job_fills_only_missing_from_single_pair
    (topic keyword : Option String) (i : Fin DEFAULT_TOPICS.length)
    (hmiss : pyFalsy topic = true ∨ pyFalsy keyword = true) :
    (pyFalsy topic = true →
      (resolveTopicKeyword topic keyword (DEFAULT_TOPICS.get i)).1
        = (DEFAULT_TOPICS.get i).topic)
  ∧ (∀ t, topic = some t → t ≠ "" →
      (resolveTopicKeyword topic keyword (DEFAULT_TOPICS.get i)).1 = t)
  ∧ (pyFalsy keyword = true →
      (resolveTopicKeyword topic keyword (DEFAULT_TOPICS.get i)).2
        = (DEFAULT_TOPICS.get i).keyword)
  ∧ (∀ k, keyword = some k → k ≠ "" →
      (resolveTopicKeyword topic keyword (DEFAULT_TOPICS.get i)).2 = k) := by
  refine ⟨fun h => resolveTopicKeyword_fst_falsy _ _ _ h, ?_,
          fun h => resolveTopicKeyword_snd_falsy _ _ _ h, ?_⟩
  · intro t ht hne
    subst ht
    rw [resolveTopicKeyword_fst_truthy _ _ _ (pyFalsy_some_of_ne t hne)]
    simp
  · intro k hk hne
    subst hk
    rw [resolveTopicKeyword_snd_truthy _ _ _ (pyFalsy_some_of_ne k hne)]
    simp

/-- Witness for C1: topic supplied as `"X"`, keyword absent, pair 0 drawn —
the topic is kept, the keyword comes from pair 0. -/
theorem run_job_fills_only_missing_witness :
    (resolveTopicKeyword (some "X") none (DEFAULT_TOPICS.get ⟨0, by decide⟩)).1 = "X"
    ∧ (resolveTopicKeyword (some "X") none (DEFAULT_TOPICS.get ⟨0, by decide⟩)).2
        = (DEFAULT_TOPICS.get ⟨0, by decide⟩).keyword := by
  have h := run_job_fills_only_missing_from_single_pair (some "X") none
    ⟨0, by decide⟩ (Or.inr rfl)
  exact ⟨h.2.1 "X" rfl (by decide), h.2.2.1 rfl⟩

/-- C2 counterexample: with topic supplied as `"Custom topic"` and keyword
absent, the drawn pair being pair 0, the handler does NOT replace both
fields: the response keeps the caller's topic (paired with pair 0's keyword)
instead of pair 0's topic, so the claim that both fields are replaced is
false. -/
theorem run_job_not_both_replaced_counterexample :
    (run_job (some "Custom topic") none "English" 1800
        (DEFAULT_TOPICS.get ⟨0, by decide⟩) (some "key")
        (ProviderBehavior.returns [⟨⟨some "ARTICLE"⟩⟩]) "T").1
      = HttpResult.ok { topic := "Custom topic", keyword := "ai niche blog",
                        language := "English", min_words := 1800,
                        created_at := "TZ", article_markdown := "ARTICLE" }
    ∧ "Custom topic" ≠ (DEFAULT_TOPICS.get ⟨0, by decide⟩).topic := by
  exact ⟨rfl, by decide⟩

/-- C2 amended: when topic or keyword is missing, only the missing (falsy)
fields are replaced, each from the same single selected fallback pair; a
caller-supplied non-empty value for the other field is kept, not replaced. -/
theorem run_job_fallback_fills_missing_only
    (t : String) (ht : t ≠ "") (i : Fin DEFAULT_TOPICS.length) :
    resolveTopicKeyword (some t) none (DEFAULT_TOPICS.get i)
        = (t, (DEFAULT_TOPICS.get i).keyword)
  ∧ resolveTopicKeyword none (some t) (DEFAULT_TOPICS.get i)
        = ((DEFAULT_TOPICS.get i).topic, t)
  ∧ resolveTopicKeyword none none (DEFAULT_TOPICS.get i)
        = ((DEFAULT_TOPICS.get i).topic, (DEFAULT_TOPICS.get i).keyword) := by
  have hf := pyFalsy_some_of_ne t ht
  refine ⟨Prod.ext ?_ ?_, Prod.ext ?_ ?_, Prod.ext ?_ ?_⟩
  · rw [resolveTopicKeyword_fst_truthy _ _ _ hf]; rfl
  · exact resolveTopicKeyword_snd_falsy _ _ _ rfl
  · exact resolveTopicKeyword_fst_falsy _ _ _ rfl
  · rw [resolveTopicKeyword_snd_truthy _ _ _ hf]; rfl
  · exact resolveTopicKeyword_fst_falsy _ _ _ rfl
  · exact resolveTopicKeyword_snd_falsy _ _ _ rfl

/-- Witness for the amended C2 at `t := "Custom topic"` and pair 0. -/
theorem run_job_fallback_fills_missing_only_witness :
    resolveTopicKeyword (some "Custom topic") none (DEFAULT_TOPICS.get ⟨0, by decide⟩)
        = ("Custom topic", (DEFAULT_TOPICS.get ⟨0, by decide⟩).keyword)
    ∧ resolveTopicKeyword none none (DEFAULT_TOPICS.get ⟨0, by decide⟩)
        = ((DEFAULT_TOPICS.get ⟨0, by decide⟩).topic,
           (DEFAULT_TOPICS.get ⟨0, by decide⟩).keyword) := by
  have h := run_job_fallback_fills_missing_only "Custom topic" (by decide) ⟨0, by decide⟩
  exact ⟨h.1, h.2.2⟩

/-- C9: an empty-string topic or keyword is treated exactly like an absent
one (the check is Python falsiness, not absence): it is replaced by the
corresponding field of the drawn pair, and consequently the resolved
topic/keyword handed to the generator and echoed in the response are never
empty. -/
theorem run_job_empty_string_treated_missing
    (topic keyword : Option String) (i : Fin DEFAULT_TOPICS.length) :
    ((resolveTopicKeyword (some "") keyword (DEFAULT_TOPICS.get i)).1
        = (DEFAULT_TOPICS.get i).topic)
  ∧ ((resolveTopicKeyword topic (some "") (DEFAULT_TOPICS.get i)).2
        = (DEFAULT_TOPICS.get i).keyword)
  ∧ (resolveTopicKeyword topic keyword (DEFAULT_TOPICS.get i)).1 ≠ ""
  ∧ (resolveTopicKeyword topic keyword (DEFAULT_TOPICS.get i)).2 ≠ "" := by
  refine ⟨resolveTopicKeyword_fst_falsy _ _ _ (by decide),
          resolveTopicKeyword_snd_falsy _ _ _ (by decide), ?_, ?_⟩
  · by_cases h : pyFalsy topic = true
    · rw [resolveTopicKeyword_fst_falsy _ _ _ h]
      exact (default_topics_fields_nonempty i).1
    · simp only [Bool.not_eq_true] at h
      rw [resolveTopicKeyword_fst_truthy _ _ _ h]
      exact getD_ne_empty_of_truthy _ h
  · by_cases h : pyFalsy keyword = true
    · rw [resolveTopicKeyword_snd_falsy _ _ _ h]
      exact (default_topics_fields_nonempty i).2
    · simp only [Bool.not_eq_true] at h
      rw [resolveTopicKeyword_snd_truthy _ _ _ h]
      exact getD_ne_empty_of_truthy _ h

/-- C3: whenever the generator succeeds with article text `A`, the handler
answers HTTP 200 with a body echoing the resolved topic, keyword, language
and min_words, carrying `A` as `article_markdown`, and with `created_at`
equal to the current UTC instant string (`nowIso`, the value of
`datetime.utcnow().isoformat()`) followed by the literal `"Z"`. -/
theorem run_job_success_response (topic keyword : Option String)
    (language : String) (min_words : Int) (c : TopicKeywordPair)
    (apiKey : Option String) (provider : ProviderBehavior) (nowIso A : String)
    (hA : (generate_article apiKey (resolveTopicKeyword topic keyword c).1
            (resolveTopicKeyword topic keyword c).2 language min_words provider).result
          = Except.ok A) :
    (run_job topic keyword language min_words c apiKey provider nowIso).1
      = HttpResult.ok { topic := (resolveTopicKeyword topic keyword c).1,
                        keyword := (resolveTopicKeyword topic keyword c).2,
                        language := language, min_words := min_words,
                        created_at := nowIso ++ "Z", article_markdown := A } := by
  simp only [run_job]
  rw [hA]

/-- Witness for C3, the scenario of §8 of the spec: topic "X", keyword "Y",
French, 900 words, stubbed provider returning "ARTICLE". -/
theorem run_job_success_response_witness :
    (run_job (some "X") (some "Y") "French" 900 (DEFAULT_TOPICS.get ⟨0, by decide⟩)
        (some "sk-test") (ProviderBehavior.returns [⟨⟨some "ARTICLE"⟩⟩])
        "2025-01-01T00:00:00").1
      = HttpResult.ok { topic := "X", keyword := "Y", language := "French",
                        min_words := 900, created_at := "2025-01-01T00:00:00Z",
                        article_markdown := "ARTICLE" } := by
  have h := run_job_success_response (some "X") (some "Y") "French" 900
    (DEFAULT_TOPICS.get ⟨0, by decide⟩) (some "sk-test")
    (ProviderBehavior.returns [⟨⟨some "ARTICLE"⟩⟩]) "2025-01-01T00:00:00" "ARTICLE" rfl
  exact h.trans (by decide)

/-- C4: every error the generator raises at its three explicit failure sites
(configuration, provider, empty response) is a `RuntimeError`, and the
handler maps any such error to `HTTPException` status 500 whose `detail` is
exactly the stringified error message — no other outcome. -/
theorem run_job_runtime_error_maps_500 (topic keyword : Option String)
    (language : String) (min_words : Int) (c : TopicKeywordPair)
    (apiKey : Option String) (provider : ProviderBehavior) (nowIso msg : String)
    (h : (generate_article apiKey (resolveTopicKeyword topic keyword c).1
            (resolveTopicKeyword topic keyword c).2 language min_words provider).result
          = Except.error (PyExc.runtimeError msg)) :
    (run_job topic keyword language min_words c apiKey provider nowIso).1
      = HttpResult.httpException 500 msg := by
  simp only [run_job]
  rw [h]

/-- Witness for C4: missing API key yields HTTP 500 with the configuration
message as detail. -/
theorem run_job_runtime_error_maps_500_witness :
    (run_job (some "X") (some "Y") "English" 1800 (DEFAULT_TOPICS.get ⟨0, by decide⟩)
        none (ProviderBehavior.raises "boom") "T").1
      = HttpResult.httpException 500
          "OPENAI_API_KEY is not set. Configure it as an environment variable." := by
  exact run_job_runtime_error_maps_500 (some "X") (some "Y") "English" 1800
    (DEFAULT_TOPICS.get ⟨0, by decide⟩) none (ProviderBehavior.raises "boom") "T"
    "OPENAI_API_KEY is not set. Configure it as an environment variable." rfl

/-- C5: when the `OPENAI_API_KEY` environment value is absent or empty, the
generator fails with the configuration `RuntimeError` before anything else:
no prompt is built (`userPrompt = none`) and the outbound provider call is
never attempted (`providerCalled = false`), whatever the provider would have
done. -/
theorem generate_article_missing_key (apiKey : Option String)
    (topic keyword language : String) (min_words : Int)
    (provider : ProviderBehavior) (h : pyFalsy apiKey = true) :
    generate_article apiKey topic keyword language min_words provider
      = { userPrompt := none, providerCalled := false,
          result := Except.error (PyExc.runtimeError
            "OPENAI_API_KEY is not set. Configure it as an environment variable.") } := by
  simp [generate_article, h]

/-- Witness for C5 at both an absent and an empty credential. -/
theorem generate_article_missing_key_witness :
    generate_article none "t" "k" "English" 1800 (ProviderBehavior.raises "x")
      = { userPrompt := none, providerCalled := false,
          result := Except.error (PyExc.runtimeError
            "OPENAI_API_KEY is not set. Configure it as an environment variable.") }
    ∧ generate_article (some "") "t" "k" "English" 1800 (ProviderBehavior.raises "x")
      = { userPrompt := none, providerCalled := false,
          result := Except.error (PyExc.runtimeError
            "OPENAI_API_KEY is not set. Configure it as an environment variable.") } := by
  exact ⟨generate_article_missing_key none "t" "k" "English" 1800 _ rfl,
         generate_article_missing_key (some "") "t" "k" "English" 1800 _ (by decide)⟩

/-- C6: when the outbound call raises an exception with message `e`, the
generator fails with a `RuntimeError` whose message wraps and preserves `e`
(`e` is a suffix of the wrapped message), and no article is returned. -/
theorem generate_article_provider_error (apiKey : Option String)
    (topic keyword language : String) (min_words : Int) (e : String)
    (hk : pyFalsy apiKey = false) :
    (generate_article apiKey topic keyword language min_words
        (ProviderBehavior.raises e)).result
      = Except.error (PyExc.runtimeError ("Error calling OpenAI API: " ++ e))
    ∧ ∃ pre, "Error calling OpenAI API: " ++ e = pre ++ e := by
  constructor
  · simp [generate_article, hk]
  · exact ⟨"Error calling OpenAI API: ", rfl⟩

/-- Witness for C6: a raised "connection refused" is wrapped and preserved. -/
theorem generate_article_provider_error_witness :
    (generate_article (some "sk") "t" "k" "English" 1800
        (ProviderBehavior.raises "connection refused")).result
      = Except.error (PyExc.runtimeError
          "Error calling OpenAI API: connection refused")
    ∧ ∃ pre, "Error calling OpenAI API: connection refused"
        = pre ++ "connection refused" := by
  have h := generate_article_provider_error (some "sk") "t" "k" "English" 1800
    "connection refused" (by decide)
  exact ⟨h.1, h.2⟩

/-- C7: when the provider call succeeds but the first completion choice has
no text content (`None` or `""`), the generator fails with the
empty-article `RuntimeError` instead of returning a value. -/
theorem generate_article_empty_content (apiKey : Option String)
    (topic keyword language : String) (min_words : Int)
    (content : Option String) (rest : List CompletionChoice)
    (hk : pyFalsy apiKey = false) (hc : pyFalsy content = true) :
    (generate_article apiKey topic keyword language min_words
        (ProviderBehavior.returns ({ message := { content := content } } :: rest))).result
      = Except.error (PyExc.runtimeError "OpenAI returned an empty article.") := by
  cases content with
  | none => simp [generate_article, hk]
  | some s =>
      simp only [pyFalsy] at hc
      simp [generate_article, hk, hc]

/-- Witness for C7 at both a `None` content and an empty-string content. -/
theorem generate_article_empty_content_witness :
    (generate_article (some "sk") "t" "k" "English" 1800
        (ProviderBehavior.returns [{ message := { content := none } }])).result
      = Except.error (PyExc.runtimeError "OpenAI returned an empty article.")
    ∧ (generate_article (some "sk") "t" "k" "English" 1800
        (ProviderBehavior.returns [{ message := { content := some "" } }])).result
      = Except.error (PyExc.runtimeError "OpenAI returned an empty article.") := by
  exact ⟨generate_article_empty_content (some "sk") "t" "k" "English" 1800 none []
           (by decide) rfl,
         generate_article_empty_content (some "sk") "t" "k" "English" 1800 (some "") []
           (by decide) (by decide)⟩

/-- C8: a request with `min_words` outside [500, 5000] is rejected by the
validation layer with status 422 (a 400-class status) and its
validation-error body before the handler body runs: the generator is never
invoked and no outbound call is attempted. -/
theorem endpoint_rejects_min_words_out_of_range (topic keyword : Option String)
    (language : String) (min_words : Int) (c : TopicKeywordPair)
    (apiKey : Option String) (provider : ProviderBehavior) (nowIso : String)
    (h : min_words < 500 ∨ 5000 < min_words) :
    (endpoint_run topic keyword language min_words c apiKey provider nowIso)
        = { response := HttpResult.validationError 422,
            generatorInvoked := false, providerCalled := false }
    ∧ ((400:Int) ≤ 422 ∧ (422:Int) < 500) := by
  constructor
  · unfold endpoint_run
    rw [if_pos h]
  · constructor <;> norm_num

/-- Witness for C8 at `min_words = 499`. -/
theorem endpoint_rejects_min_words_witness :
    (endpoint_run (some "X") (some "Y") "English" 499
        (DEFAULT_TOPICS.get ⟨0, by decide⟩) (some "sk")
        (ProviderBehavior.raises "never called") "T")
      = { response := HttpResult.validationError 422,
          generatorInvoked := false, providerCalled := false }
    ∧ ((400:Int) ≤ 422 ∧ (422:Int) < 500) := by
  exact endpoint_rejects_min_words_out_of_range (some "X") (some "Y") "English" 499
    (DEFAULT_TOPICS.get ⟨0, by decide⟩) (some "sk")
    (ProviderBehavior.raises "never called") "T" (Or.inl (by norm_num))

/-- C10: when the provider returns a completion whose `choices` list is
empty, the access `completion.choices[0]` sits outside the `try` block, so
the failure is an `IndexError`, not a `RuntimeError`; it escapes the
handler's `except RuntimeError` clause, and the request does not produce the
specified HTTP 500 body with a `detail` field for any detail string. -/
theorem run_job_empty_choices_escapes_handler :
    (generate_article (some "sk") "t" "k" "English" 1800
        (ProviderBehavior.returns [])).result
      = Except.error (PyExc.indexError "list index out of range")
    ∧ (run_job (some "t") (some "k") "English" 1800 (DEFAULT_TOPICS.get ⟨0, by decide⟩)
          (some "sk") (ProviderBehavior.returns []) "T").1
      = HttpResult.unhandledException (PyExc.indexError "list index out of range")
    ∧ ∀ d : String,
        (run_job (some "t") (some "k") "English" 1800 (DEFAULT_TOPICS.get ⟨0, by decide⟩)
            (some "sk") (ProviderBehavior.returns []) "T").1
          ≠ HttpResult.httpException 500 d := by
  have h2 : (run_job (some "t") (some "k") "English" 1800
        (DEFAULT_TOPICS.get ⟨0, by decide⟩) (some "sk")
        (ProviderBehavior.returns []) "T").1
      = HttpResult.unhandledException (PyExc.indexError "list index out of range") := rfl
  refine ⟨rfl, h2, fun d h => ?_⟩
  rw [h2] at h
  exact HttpResult.noConfusion h

end BlogAgent
